import Mathlib

/-!
Verification of the `ai.py` command-line chatbot (repository `ghumphr/ai`).

The file shallowly embeds the program: the history codec (`save_history`,
`load_history`), the instruction/prompt-prefix resolution, the one-shot
exchange and the interactive chat loop of `main`, together with a model of
the pieces of the environment the program touches (the file system, the
standard input, the environment variable holding the credential, and the
remote generative API as an oracle).  Theorems about these definitions
settle the behavioural claims of the specification.
-/

namespace AiSpec

/-- JSON documents, as produced by `json.load` and consumed by `json.dump`
in `ai.py`.  Numbers are modelled as integers; history documents written by
the program never contain numbers, and no claim depends on float values. -/
inductive Json where
  | null
  | bool (b : Bool)
  | num (n : Int)
  | str (s : String)
  | arr (elems : List Json)
  | obj (fields : List (String × Json))

mutual

/-- Serialization of a JSON document to text (the shape `json.dump` gives,
without the `indent=4` whitespace, which `json.load` ignores anyway). -/
def Json.dump : Json → String
  | .null => "null"
  | .bool b => if b then "true" else "false"
  | .num n => toString n
  | .str s => "\"" ++ s ++ "\""
  | .arr es => "[" ++ String.intercalate ", " (Json.dumpList es) ++ "]"
  | .obj fs => "\x7b" ++ String.intercalate ", " (Json.dumpFields fs) ++ "\x7d"

/-- Serialize each element of a JSON array. -/
def Json.dumpList : List Json → List String
  | [] => []
  | j :: js => Json.dump j :: Json.dumpList js

/-- Serialize each field of a JSON object. -/
def Json.dumpFields : List (String × Json) → List String
  | [] => []
  | (k, v) :: fs => ("\"" ++ k ++ "\": " ++ Json.dump v) :: Json.dumpFields fs

end

/-- The observable state of one path on disk, at the granularity the program
distinguishes.  `textFile s` is a readable file whose contents `s` are not a
valid JSON document (`json.load` raises `JSONDecodeError` on it);
`jsonFile j` is a readable file whose contents parse as the JSON document
`j`; `unreadable` is a path that exists but on which opening for read or
write raises an `OSError` other than `FileNotFoundError`. -/
inductive FileState where
  | absent
  | textFile (s : String)
  | jsonFile (j : Json)
  | unreadable

/-- The file system: the state of every path. -/
abbrev FS := String → FileState

/-- Overwrite one path of the file system. -/
def FS.update (fs : FS) (path : String) (st : FileState) : FS :=
  fun p => if p = path then st else fs p

/-- Result of `open(path).read()` on a path. -/
inductive ReadResult where
  | notFound
  | content (s : String)
  | oserror

/-- Reading a path as text: a `jsonFile` reads back as its serialization. -/
def readTextFile (fs : FS) (path : String) : ReadResult :=
  match fs path with
  | .absent => .notFound
  | .textFile s => .content s
  | .jsonFile j => .content (Json.dump j)
  | .unreadable => .oserror

/-- One message of a conversation: a role tag and the ordered text parts.
Models a `Content` object of the SDK restricted to text parts, which is the
only shape the claims quantify over and the only shape `save_history`
serializes (`ai.py` line 22 reads `part.text` of every part). -/
structure Turn where
  role : String
  parts : List String
deriving DecidableEq

/-- `ai.py` line 23: one history entry as written by `save_history`. -/
def encodeTurn (t : Turn) : Json :=
  .obj [("role", .str t.role), ("parts", .arr (t.parts.map .str))]

/-- `ai.py` lines 20-23: the serializable history document. -/
def encodeHistory (h : List Turn) : Json :=
  .arr (h.map encodeTurn)

/-- Models `content_types.to_part` on a JSON value: a string is a text part,
a one-field object `\x7b"text": s\x7d` is a text part, and any other shape
makes the conversion raise (modelled as `none`). -/
def toPart : Json → Option String
  | .str s => some s
  | .obj [("text", .str s)] => some s
  | _ => none

/-- The `role` field of a content dictionary: missing defaults to the empty
string, a non-string value makes the conversion raise. -/
def contentRole : Option Json → Option String
  | none => some ""
  | some (.str r) => some r
  | some _ => none

/-- Convert every element of a `parts` array, aborting at the first element
whose conversion raises. -/
def convertParts : List Json → Option (List String)
  | [] => some []
  | j :: js =>
      match toPart j, convertParts js with
      | some p, some ps => some (p :: ps)
      | _, _ => none

/-- The `parts` field of a content dictionary: missing defaults to no parts,
a non-array value makes the conversion raise. -/
def contentParts : Option Json → Option (List String)
  | none => some []
  | some (.arr ps) => convertParts ps
  | some _ => none

/-- Models `content_types.to_content` on one element of the loaded JSON
document (`ai.py` line 51): a bare string becomes a content with one text
part and an unset (empty) role; a dictionary may hold only the keys `role`
and `parts`; every other shape raises, which the caller's generic handler
turns into the no-history result. -/
def toContent : Json → Option Turn
  | .str s => some ⟨"", [s]⟩
  | .obj kvs =>
      if kvs.all (fun kv => kv.1 == "role" || kv.1 == "parts") then
        match contentRole (kvs.lookup "role"), contentParts (kvs.lookup "parts") with
        | some r, some ps => some ⟨r, ps⟩
        | _, _ => none
      else none
  | _ => none

/-- Convert every iterated element of the loaded document, aborting at the
first element whose conversion raises (the for loop of `ai.py` lines 50-51). -/
def convertAll : List Json → Option (List Turn)
  | [] => some []
  | j :: js =>
      match toContent j, convertAll js with
      | some t, some ts => some (t :: ts)
      | _, _ => none

/-- `ai.py` lines 49-51: iterate over the loaded document and convert each
element.  Python iteration over a JSON value: an array yields its elements,
a dictionary yields its keys, a string yields its one-character substrings,
and any other value raises `TypeError` (modelled as `none`). -/
def decodeHistory : Json → Option (List Turn)
  | .arr xs => convertAll xs
  | .obj kvs => convertAll (kvs.map fun kv => Json.str kv.1)
  | .str s => convertAll (s.data.map fun c => Json.str (String.mk [c]))
  | _ => none

/-- `ai.py` line 28. -/
def histSavedMsg (p : String) : String := "Chat history saved to " ++ p

/-- `ai.py` line 58 (stderr, verbose only). -/
def histNotFoundMsg (p : String) : String :=
  "Error: History file " ++ p ++ " not found."

/-- `ai.py` line 62 (stderr, verbose only). -/
def histDecodeErrMsg (p : String) : String :=
  "Error: Failed to decode JSON from " ++ p ++ ". File may be corrupted."

/-- `ai.py` line 54 (stdout, verbose only). -/
def histLoadedMsg (p : String) : String := "Chat history loaded from " ++ p

/-- `ai.py` line 66 (stderr, verbose only); the rendering of the caught
exception is abstracted. -/
def histUnexpectedMsg : String :=
  "An unexpected error occurred while loading history: OSError"

/-- `ai.py` lines 9-31, `save_history(chat_history, file_path, verbose)`.
Serializes the history and overwrites `file_path`; every exception is caught
inside the function, so a write failure only reports (when verbose) and the
file system is left unchanged.  Returns the new file system, the stdout
lines and the stderr lines. -/
def save_history (chat_history : List Turn) (file_path : String) (verbose : Bool)
    (fs : FS) : FS × List String × List String :=
  match fs file_path with
  | .unreadable =>
      (fs, [], if verbose then ["Error saving chat history: OSError"] else [])
  | _ =>
      (fs.update file_path (.jsonFile (encodeHistory chat_history)),
       if verbose then [histSavedMsg file_path] else [], [])

/-- `ai.py` lines 33-67, `load_history(file_path, verbose)`.  Returns the
loaded history (`none` is the no-history sentinel of the source, returned on
a missing file, on content `json.load` cannot decode, and on any other
error), the stdout lines and the stderr lines. -/
def load_history (file_path : String) (verbose : Bool) (fs : FS) :
    Option (List Turn) × List String × List String :=
  match fs file_path with
  | .absent =>
      (none, [], if verbose then [histNotFoundMsg file_path] else [])
  | .textFile _ =>
      (none, [], if verbose then [histDecodeErrMsg file_path] else [])
  | .unreadable =>
      (none, [], if verbose then [histUnexpectedMsg] else [])
  | .jsonFile j =>
      match decodeHistory j with
      | some h => (some h, if verbose then [histLoadedMsg file_path] else [], [])
      | none => (none, [], if verbose then [histUnexpectedMsg] else [])

/-- `ai.py` lines 180-189: the caller of `load_history` seeds the chat
session with the loaded history when there is one and with a fresh empty
transcript when the sentinel came back. -/
def seedHistory : Option (List Turn) → List Turn
  | some h => h
  | none => []

/- Round-trip lemmas for the history codec. -/

theorem convertParts_map_str (ps : List String) :
    convertParts (ps.map Json.str) = some ps := by
  induction ps with
  | nil => rfl
  | cons p ps ih => simp [convertParts, toPart, ih]

theorem toContent_encodeTurn (t : Turn) : toContent (encodeTurn t) = some t := by
  cases t with
  | mk r ps =>
      simp [encodeTurn, toContent, contentRole, contentParts, List.lookup,
        convertParts_map_str]

theorem decodeHistory_encodeHistory (h : List Turn) :
    decodeHistory (encodeHistory h) = some h := by
  induction h with
  | nil => rfl
  | cons t ts ih =>
      simp only [encodeHistory, List.map_cons, decodeHistory, convertAll,
        toContent_encodeTurn] at *
      simp [ih]

/-- The parsed command-line arguments (`ai.py` lines 74-96).  `none` is an
absent string flag; `promptPrefix` and `promptPrefixFile` stand for the
source attributes `prompt_prefix` and `prompt_prefix_file`. -/
structure Args where
  api_key : Option String
  system_instruction : Option String
  system_instruction_file : Option String
  promptPrefix : Option String
  promptPrefixFile : Option String
  model : String
  list_models : Bool
  save_history : Option String
  load_history : Option String
  verbose : Bool
  once : Bool
  chat : Bool
  expression : Option String
  file : Option String

/-- Python truthiness of an optional string flag: `None` and the empty
string are falsy, every other string is truthy. -/
def pyTruthy : Option String → Bool
  | none => false
  | some s => !(s == "")

/-- Python `str.lower()`, modelled character-wise (the program only ever
compares the result against the ASCII words `exit` and `quit`). -/
def pyLower (s : String) : String := String.mk (s.data.map Char.toLower)

/-- Python `str.strip()`: drop leading and trailing whitespace. -/
def pyStrip (s : String) : String :=
  String.mk (((s.data.dropWhile Char.isWhitespace).reverse.dropWhile
    Char.isWhitespace).reverse)

/-- `ai.py` lines 217-220 and 264-267: the prompt prefix is prepended,
separated by a newline, exactly when it is a non-empty (truthy) string. -/
def applyPrefix (promptPrefix user_input : String) : String :=
  if promptPrefix ≠ "" then promptPrefix ++ "\n" ++ user_input else user_input

/-- The attribute names defined on the argparse namespace built in `main`
(`ai.py` lines 75-94): one per `add_argument` call, dashes replaced by
underscores. -/
def argsAttrs : List String :=
  ["api_key", "system_instruction", "system_instruction_file", "prompt_prefix",
   "prompt_prefix_file", "model", "list_models", "save_history", "load_history",
   "verbose", "once", "chat", "expression", "file"]

/-- Models the Python expression `args.stderr` at `ai.py` lines 253, 260 and
282 (the `verbose=` argument of the chat-mode `save_history` calls):
attribute lookup on the argparse namespace succeeds only for the attributes
in `argsAttrs`, and `stderr` is not among them, so evaluating the argument
raises `AttributeError` before `save_history` is entered.  The error string
is the exception text the generic handler interpolates. -/
def argsStderrLookup : Except String Bool :=
  if argsAttrs.contains "stderr" then Except.ok true
  else Except.error "Namespace object has no attribute stderr"

/-- One answer of the remote API to a `send_message` call: a successful
completion, a `GoogleAPIError`, or any other exception. -/
inductive ApiResult where
  | ok (text : String)
  | apiError (msg : String)
  | otherError (msg : String)

/-- The process environment: the `GOOGLE_API_KEY` variable, the file
system, the whole of standard input for one-shot mode, the lines `input()`
yields in chat mode (the end of the list is end-of-stream), the remote API
as an oracle indexed by the number of preceding `send_message` calls, and
the model names a `list_models` query reports as supporting generation. -/
structure Env where
  googleApiKey : Option String
  fs : FS
  stdinAll : String
  stdinLines : List String
  api : Nat → ApiResult
  generativeModels : List String

/-- The observable result of one program run: the process exit status, the
lines printed to stdout and stderr in order, the payloads of the
`send_message` calls made, in order, and the final file system. -/
structure Outcome where
  exitCode : Nat
  stdout : List String
  stderr : List String
  apiCalls : List String
  fs : FS

/-- How the instruction/prompt-prefix resolution can abort the process:
`fatalExit` is `sys.exit(1)` after a diagnostic on stderr (`ai.py` lines
134-135 and 157-158); `uncaught` is an `OSError` other than
`FileNotFoundError`, which no handler catches at that point, so the
interpreter prints a traceback and exits 1. -/
inductive ResolveError where
  | fatalExit (stderrMsg : String)
  | uncaught
deriving DecidableEq

/-- `ai.py` lines 123-144: resolve the system instruction by the three-tier
precedence inline flag > explicit file > default file
`system_instructions.txt`.  Returns the resolved text and the stdout lines,
or how the process aborted. -/
def resolveSystemInstruction (args : Args) (fs : FS) :
    Except ResolveError (String × List String) :=
  if pyTruthy args.system_instruction then
    Except.ok (args.system_instruction.getD "", [])
  else if pyTruthy args.system_instruction_file then
    match readTextFile fs (args.system_instruction_file.getD "") with
    | .content s =>
        Except.ok (pyStrip s,
          if args.verbose then
            ["Loaded system instruction from " ++ args.system_instruction_file.getD ""]
          else [])
    | .notFound =>
        Except.error (.fatalExit
          ("Error: System instruction file " ++ args.system_instruction_file.getD ""
            ++ " not found."))
    | .oserror => Except.error .uncaught
  else
    match readTextFile fs "system_instructions.txt" with
    | .content s =>
        Except.ok (pyStrip s,
          if args.verbose then
            ["Loaded system instruction from default file system_instructions.txt"]
          else [])
    | .notFound =>
        Except.ok ("", if args.verbose then ["No system instruction file found."] else [])
    | .oserror => Except.error .uncaught

/-- `ai.py` lines 146-167: resolve the prompt prefix by the same three-tier
precedence, with default file `prompt_prefix.txt`. -/
def resolvePromptPrefix (args : Args) (fs : FS) :
    Except ResolveError (String × List String) :=
  if pyTruthy args.promptPrefix then
    Except.ok (args.promptPrefix.getD "", [])
  else if pyTruthy args.promptPrefixFile then
    match readTextFile fs (args.promptPrefixFile.getD "") with
    | .content s =>
        Except.ok (pyStrip s,
          if args.verbose then
            ["Loaded prompt prefix from " ++ args.promptPrefixFile.getD ""]
          else [])
    | .notFound =>
        Except.error (.fatalExit
          ("Error: Prompt prefix file " ++ args.promptPrefixFile.getD "" ++ " not found."))
    | .oserror => Except.error .uncaught
  else
    match readTextFile fs "prompt_prefix.txt" with
    | .content s =>
        Except.ok (pyStrip s,
          if args.verbose then
            ["Loaded prompt prefix from default file prompt_prefix.txt"]
          else [])
    | .notFound =>
        Except.ok ("", if args.verbose then ["No prompt prefix file found."] else [])
    | .oserror => Except.error .uncaught

/-- How the one-shot input resolution can abort: `fatalExit` is the
`sys.exit(1)` of `ai.py` lines 206-207; `oserrorToHandler` is an `OSError`
other than `FileNotFoundError` raised inside the outer `try`, which the
generic handler of line 288 catches. -/
inductive InputError where
  | fatalExit (stderrMsg : String)
  | oserrorToHandler
deriving DecidableEq

/-- `ai.py` lines 194-210: resolve the one-shot user input.  A truthy
`--expression` is used verbatim; otherwise a truthy `--file` is read and
stripped; otherwise all of standard input is read to end-of-stream and
stripped.  Returns the resolved input and the stdout lines. -/
def resolveOneShotInput (args : Args) (env : Env) :
    Except InputError (String × List String) :=
  if pyTruthy args.expression || pyTruthy args.file then
    if pyTruthy args.expression then
      Except.ok (args.expression.getD "", [])
    else
      match readTextFile env.fs (args.file.getD "") with
      | .content s =>
          Except.ok (pyStrip s,
            if args.verbose then ["Loaded prompt from file: " ++ args.file.getD ""] else [])
      | .notFound =>
          Except.error (.fatalExit
            ("Error: Prompt file " ++ args.file.getD "" ++ " not found."))
      | .oserror => Except.error .oserrorToHandler
  else
    Except.ok (pyStrip env.stdinAll, [])

/-- `ai.py` lines 284-287: what the `GoogleAPIError` handler prints to
stderr. -/
def apiErrorLines (verbose : Bool) (msg : String) : List String :=
  ("A Gemini API error occurred: " ++ msg) ::
    (if verbose then ["Please check your API key, model name, and network connection."]
     else [])

/-- `ai.py` lines 288-291: what the generic exception handler prints to
stderr. -/
def unexpectedErrorLines (verbose : Bool) (msg : String) : List String :=
  ("An unexpected error occurred: " ++ msg) ::
    (if verbose then ["Please review your arguments and setup."] else [])

/-- `ai.py` lines 212-235: the one-shot exchange, given the resolved prompt
prefix, the seed history of the chat session and the resolved user input.
An empty input returns without an API call (diagnostic only when verbose);
otherwise the prefixed query is sent, the response (or the caught error) is
printed, and with `--save-history` the history is saved with
`verbose=args.verbose` (line 233). -/
def oneShotExchange (promptPrefix : String) (verbose : Bool)
    (saveArg : Option String) (api : Nat → ApiResult) (fs : FS)
    (seed : List Turn) (user_input : String) : Outcome :=
  if user_input == "" then
    { exitCode := 0, stdout := [],
      stderr := if verbose then ["No prompt provided. Exiting."] else [],
      apiCalls := [], fs := fs }
  else
    let modified_query := applyPrefix promptPrefix user_input
    let sendingOut := if verbose then ["Sending query to model: " ++ modified_query] else []
    match api 0 with
    | .ok t =>
        let botOut := if verbose then ["Bot: " ++ t] else [t]
        let history := seed ++ [⟨"user", [modified_query]⟩, ⟨"model", [t]⟩]
        if pyTruthy saveArg then
          let r := save_history history (saveArg.getD "") verbose fs
          { exitCode := 0, stdout := sendingOut ++ botOut ++ r.2.1,
            stderr := r.2.2, apiCalls := [modified_query], fs := r.1 }
        else
          { exitCode := 0, stdout := sendingOut ++ botOut, stderr := [],
            apiCalls := [modified_query], fs := fs }
    | .apiError m =>
        { exitCode := 0, stdout := sendingOut, stderr := apiErrorLines verbose m,
          apiCalls := [modified_query], fs := fs }
    | .otherError m =>
        { exitCode := 0, stdout := sendingOut, stderr := unexpectedErrorLines verbose m,
          apiCalls := [modified_query], fs := fs }

/-- Fifty dashes (`"-" * 50`, `ai.py` lines 241 and 276). -/
def dashLine : String := "".pushn (Char.ofNat 45) 50

/-- `ai.py` lines 243-282: the interactive chat loop, one iteration per
input line; an empty line list is end-of-stream (`input()` raises
`EOFError`).  Every iteration first writes the `"You: "` prompt to stderr.
A line whose `.lower()` is exactly `exit` or `quit` (no stripping), and
end-of-stream, end the loop; both then attempt a final history save whose
`verbose=args.stderr` argument raises `AttributeError` (`argsStderrLookup`),
ending the run through the generic handler.  Otherwise the prefixed line is
sent; a successful exchange prints the response and, with `--save-history`,
attempts the same crashing save; a failed exchange leaves the loop through
the matching handler (`ai.py` lines 284-291). -/
def chatLoop (promptPrefix : String) (verbose : Bool) (saveArg : Option String)
    (api : Nat → ApiResult) :
    List String → Nat → List Turn → FS → Outcome
  | [], _, history, fs =>
      let eofErr := "You: " :: (if verbose then ["\nEOF received, ending chat."] else [])
      if pyTruthy saveArg then
        match argsStderrLookup with
        | .ok vb =>
            let r := save_history history (saveArg.getD "") vb fs
            { exitCode := 0, stdout := r.2.1, stderr := eofErr ++ r.2.2,
              apiCalls := [], fs := r.1 }
        | .error m =>
            { exitCode := 0, stdout := [],
              stderr := eofErr ++ unexpectedErrorLines verbose m,
              apiCalls := [], fs := fs }
      else
        { exitCode := 0, stdout := [], stderr := eofErr, apiCalls := [], fs := fs }
  | line :: rest, callIdx, history, fs =>
      let promptErr := ["You: "]
      if pyLower line == "exit" || pyLower line == "quit" then
        let byeOut := if verbose then ["Ending chat. Goodbye!"] else []
        if pyTruthy saveArg then
          match argsStderrLookup with
          | .ok vb =>
              let r := save_history history (saveArg.getD "") vb fs
              { exitCode := 0, stdout := byeOut ++ r.2.1, stderr := promptErr ++ r.2.2,
                apiCalls := [], fs := r.1 }
          | .error m =>
              { exitCode := 0, stdout := byeOut,
                stderr := promptErr ++ unexpectedErrorLines verbose m,
                apiCalls := [], fs := fs }
        else
          { exitCode := 0, stdout := byeOut, stderr := promptErr, apiCalls := [], fs := fs }
      else
        let q := applyPrefix promptPrefix line
        let sendingOut := if verbose then ["Sending query to model: " ++ q] else []
        match api callIdx with
        | .ok t =>
            let botOut := if verbose then ["Bot: " ++ t, dashLine] else [t]
            let history2 := history ++ [⟨"user", [q]⟩, ⟨"model", [t]⟩]
            if pyTruthy saveArg then
              match argsStderrLookup with
              | .ok vb =>
                  let r := save_history history2 (saveArg.getD "") vb fs
                  let o := chatLoop promptPrefix verbose saveArg api rest (callIdx + 1)
                    history2 r.1
                  { exitCode := o.exitCode,
                    stdout := sendingOut ++ botOut ++ r.2.1 ++ o.stdout,
                    stderr := promptErr ++ r.2.2 ++ o.stderr,
                    apiCalls := q :: o.apiCalls, fs := o.fs }
              | .error m =>
                  { exitCode := 0, stdout := sendingOut ++ botOut,
                    stderr := promptErr ++ unexpectedErrorLines verbose m,
                    apiCalls := [q], fs := fs }
            else
              let o := chatLoop promptPrefix verbose saveArg api rest (callIdx + 1)
                history2 fs
              { exitCode := o.exitCode, stdout := sendingOut ++ botOut ++ o.stdout,
                stderr := promptErr ++ o.stderr, apiCalls := q :: o.apiCalls, fs := o.fs }
        | .apiError m =>
            { exitCode := 0, stdout := sendingOut,
              stderr := promptErr ++ apiErrorLines verbose m,
              apiCalls := [q], fs := fs }
        | .otherError m =>
            { exitCode := 0, stdout := sendingOut,
              stderr := promptErr ++ unexpectedErrorLines verbose m,
              apiCalls := [q], fs := fs }

/-- `ai.py` lines 238-282: the chat branch prints the verbose banner and
runs the loop on the standard-input lines. -/
def chatBranch (modelName promptPrefix : String) (verbose : Bool)
    (saveArg : Option String) (api : Nat → ApiResult) (lines : List String)
    (seed : List Turn) (fs : FS) : Outcome :=
  let banner :=
    if verbose then
      ["Chatbot started using model " ++ modelName
        ++ "! Type exit or quit to end the conversation.", dashLine]
    else []
  let o := chatLoop promptPrefix verbose saveArg api lines 0 seed fs
  { exitCode := o.exitCode, stdout := banner ++ o.stdout, stderr := o.stderr,
    apiCalls := o.apiCalls, fs := o.fs }

/-- `ai.py` lines 69-291, `main()`: flag-conflict check, credential
resolution, `--list-models`, system-instruction and prompt-prefix
resolution, optional history rehydration, then the one-shot or chat branch.
The exit status is the interpreter status of the run: `sys.exit(1)` paths
and uncaught exceptions give 1, every other path (including every `return`
from `main`) gives 0. -/
def main (args : Args) (env : Env) : Outcome :=
  if pyTruthy args.save_history && pyTruthy args.load_history then
    { exitCode := 0, stdout := [],
      stderr :=
        if args.verbose then
          ["Error: Cannot use --save-history and --load-history at the same time."]
        else [],
      apiCalls := [], fs := env.fs }
  else
    let api_key := if pyTruthy args.api_key then args.api_key else env.googleApiKey
    if !pyTruthy api_key then
      { exitCode := 0, stdout := [],
        stderr :=
          if args.verbose then
            ["Error: The Gemini API key was not provided.",
             "Please set it via the --api-key flag or the GOOGLE_API_KEY environment variable."]
          else [],
        apiCalls := [], fs := env.fs }
    else if args.list_models then
      { exitCode := 0,
        stdout :=
          if args.verbose then
            "Available Gemini models for text generation:"
              :: env.generativeModels.map (fun m => "  - " ++ m)
          else [],
        stderr := [], apiCalls := [], fs := env.fs }
    else
      match resolveSystemInstruction args env.fs with
      | .error (.fatalExit m) =>
          { exitCode := 1, stdout := [], stderr := [m], apiCalls := [], fs := env.fs }
      | .error .uncaught =>
          { exitCode := 1, stdout := [],
            stderr := ["Traceback (most recent call last): OSError"],
            apiCalls := [], fs := env.fs }
      | .ok si =>
        match resolvePromptPrefix args env.fs with
        | .error (.fatalExit m) =>
            { exitCode := 1, stdout := si.2, stderr := [m], apiCalls := [], fs := env.fs }
        | .error .uncaught =>
            { exitCode := 1, stdout := si.2,
              stderr := ["Traceback (most recent call last): OSError"],
              apiCalls := [], fs := env.fs }
        | .ok pp =>
          let initOut :=
            if args.verbose then ["Model and chat session initialized successfully."] else []
          let loaded :=
            if pyTruthy args.load_history then
              let r := load_history (args.load_history.getD "") args.verbose env.fs
              (seedHistory r.1,
               r.2.1 ++
                 (if r.1 = none ∧ args.verbose then ["Starting a new chat session."] else []),
               r.2.2)
            else ([], [], [])
          let pre := si.2 ++ pp.2 ++ initOut ++ loaded.2.1
          if !args.chat then
            match resolveOneShotInput args env with
            | .error (.fatalExit m) =>
                { exitCode := 1, stdout := pre, stderr := loaded.2.2 ++ [m],
                  apiCalls := [], fs := env.fs }
            | .error .oserrorToHandler =>
                { exitCode := 0, stdout := pre,
                  stderr := loaded.2.2 ++ unexpectedErrorLines args.verbose "OSError",
                  apiCalls := [], fs := env.fs }
            | .ok inp =>
                let o := oneShotExchange pp.1 args.verbose args.save_history env.api env.fs
                  loaded.1 inp.1
                { exitCode := o.exitCode, stdout := pre ++ inp.2 ++ o.stdout,
                  stderr := loaded.2.2 ++ o.stderr, apiCalls := o.apiCalls, fs := o.fs }
          else
            let o := chatBranch args.model pp.1 args.verbose args.save_history env.api
              env.stdinLines loaded.1 env.fs
            { exitCode := o.exitCode, stdout := pre ++ o.stdout,
              stderr := loaded.2.2 ++ o.stderr, apiCalls := o.apiCalls, fs := o.fs }

/-- A baseline argument vector: credential given by flag, every other flag
absent, defaults as argparse sets them. -/
def baseArgs : Args :=
  { api_key := some "k", system_instruction := none, system_instruction_file := none,
    promptPrefix := none, promptPrefixFile := none, model := "gemini-1.5-flash",
    list_models := false, save_history := none, load_history := none, verbose := false,
    once := false, chat := false, expression := none, file := none }

/-- A baseline environment: no environment credential, an empty file system,
empty standard input, and an API oracle that always succeeds with `"ok"`. -/
def baseEnv : Env :=
  { googleApiKey := none, fs := fun _ => FileState.absent, stdinAll := "",
    stdinLines := [], api := fun _ => ApiResult.ok "ok", generativeModels := [] }

/-- The argparse namespace defines no `stderr` attribute, so the chat-mode
`verbose=args.stderr` argument always raises. -/
theorem argsStderrLookup_eq :
    argsStderrLookup = Except.error "Namespace object has no attribute stderr" := rfl

/-- On a non-exit line, the first API payload of the chat loop is the
prefixed line, whatever the API answers and whether or not saving is on. -/
theorem chatLoop_head_call (p : String) (vb : Bool) (sv : Option String)
    (api : Nat → ApiResult) (line : String) (rest : List String) (idx : Nat)
    (hist : List Turn) (fs : FS)
    (h1 : ¬pyLower line = "exit") (h2 : ¬pyLower line = "quit") :
    (chatLoop p vb sv api (line :: rest) idx hist fs).apiCalls.head?
      = some (applyPrefix p line) := by
  cases h : api idx <;>
    by_cases hsv : pyTruthy sv <;>
      simp [chatLoop, h1, h2, h, hsv, argsStderrLookup_eq]

/-- C1: for every transcript of text-only turns, loading a history file
immediately after saving the transcript to that file (to any writable path,
on any starting file system) reconstructs the same ordered sequence of
(role, parts) pairs. -/
theorem load_after_save_roundtrip (fs : FS) (path : String) (T : List Turn)
    (vb1 vb2 : Bool) (hw : fs path ≠ FileState.unreadable) :
    (load_history path vb2 (save_history T path vb1 fs).1).1 = some T := by
  cases h : fs path with
  | unreadable => exact absurd h hw
  | absent =>
      simp [save_history, h, load_history, FS.update, decodeHistory_encodeHistory]
  | textFile s =>
      simp [save_history, h, load_history, FS.update, decodeHistory_encodeHistory]
  | jsonFile j =>
      simp [save_history, h, load_history, FS.update, decodeHistory_encodeHistory]

/-- Witness for C1 at a concrete transcript and path. -/
theorem load_after_save_roundtrip_witness :
    ((fun _ => FileState.absent : FS) "h.json" ≠ FileState.unreadable) ∧
    (load_history "h.json" true
        (save_history [⟨"user", ["hi"]⟩, ⟨"model", ["yo"]⟩] "h.json" false
          (fun _ => FileState.absent)).1).1
      = some [⟨"user", ["hi"]⟩, ⟨"model", ["yo"]⟩] :=
  by
  refine ⟨fun h => (nomatch h), ?_⟩
  exact load_after_save_roundtrip (fun _ => FileState.absent) "h.json"
    [⟨"user", ["hi"]⟩, ⟨"model", ["yo"]⟩] false true (fun h => nomatch h)

/-- C2: `load_history` is total over every file-system state — it returns
the `none` sentinel (never an exception) on a missing file, on content that
does not decode, and on any other read error; in verbose mode the
not-found diagnostic differs from the decode-failure diagnostic, and in
quiet mode nothing is printed; the caller then seeds the session with a
fresh empty transcript. -/
theorem load_history_failure_cases :
    (∀ (fs : FS) (path : String) (vb : Bool), fs path = FileState.absent →
        (load_history path vb fs).1 = none ∧
        (load_history path vb fs).2.2 = if vb then [histNotFoundMsg path] else []) ∧
    (∀ (fs : FS) (path s : String) (vb : Bool), fs path = FileState.textFile s →
        (load_history path vb fs).1 = none ∧
        (load_history path vb fs).2.2 = if vb then [histDecodeErrMsg path] else []) ∧
    (∀ (fs : FS) (path : String) (vb : Bool), fs path = FileState.unreadable →
        (load_history path vb fs).1 = none ∧
        (load_history path vb fs).2.2 = if vb then [histUnexpectedMsg] else []) ∧
    (∀ path : String, histNotFoundMsg path ≠ histDecodeErrMsg path) ∧
    seedHistory none = [] := by
  refine ⟨?_, ?_, ?_, ?_, rfl⟩
  · intro fs path vb h; simp [load_history, h]
  · intro fs path s vb h; simp [load_history, h]
  · intro fs path vb h; simp [load_history, h]
  · intro path h
    have hl := congrArg String.length h
    have e1 : ("Error: History file " : String).length = 20 := by decide
    have e2 : (" not found." : String).length = 11 := by decide
    have e3 : ("Error: Failed to decode JSON from " : String).length = 34 := by decide
    have e4 : (". File may be corrupted." : String).length = 24 := by decide
    simp only [histNotFoundMsg, histDecodeErrMsg, String.length_append,
      e1, e2, e3, e4] at hl
    omega

/-- Witness for C2 at concrete file systems. -/
theorem load_history_failure_cases_witness :
    (load_history "h.json" true (fun _ => FileState.absent)).1 = none ∧
    (load_history "h.json" true (fun _ => FileState.absent)).2.2
      = [histNotFoundMsg "h.json"] ∧
    (load_history "h.json" true (fun _ => FileState.textFile "oops")).1 = none ∧
    (load_history "h.json" true (fun _ => FileState.textFile "oops")).2.2
      = [histDecodeErrMsg "h.json"] ∧
    histNotFoundMsg "h.json" ≠ histDecodeErrMsg "h.json" := by
  refine ⟨?_, ?_, ?_, ?_, ?_⟩
  · exact (load_history_failure_cases.1 (fun _ => FileState.absent) "h.json" true rfl).1
  · simpa using (load_history_failure_cases.1 (fun _ => FileState.absent) "h.json" true rfl).2
  · exact (load_history_failure_cases.2.1 (fun _ => FileState.textFile "oops") "h.json"
      "oops" true rfl).1
  · simpa using (load_history_failure_cases.2.1 (fun _ => FileState.textFile "oops")
      "h.json" "oops" true rfl).2
  · exact load_history_failure_cases.2.2.2.1 "h.json"

/-- C3 (code bug): in chat mode with `--save-history`, the save call after
the first successful exchange evaluates `args.stderr` as its `verbose`
argument; the argparse namespace has no such attribute, so `AttributeError`
is raised before `save_history` runs: the loop aborts through the generic
handler, nothing is ever written to the history file, and the remaining
input is never read. -/
theorem chat_save_attribute_error :
    (main { baseArgs with save_history := some "h.json", chat := true }
        { baseEnv with stdinLines := ["hi", "again"],
                       api := fun _ => ApiResult.ok "yo" }).apiCalls = ["hi"] ∧
    (main { baseArgs with save_history := some "h.json", chat := true }
        { baseEnv with stdinLines := ["hi", "again"],
                       api := fun _ => ApiResult.ok "yo" }).stderr
      = ["You: ",
         "An unexpected error occurred: Namespace object has no attribute stderr"] ∧
    (main { baseArgs with save_history := some "h.json", chat := true }
        { baseEnv with stdinLines := ["hi", "again"],
                       api := fun _ => ApiResult.ok "yo" }).fs "h.json"
      = FileState.absent ∧
    (main { baseArgs with save_history := some "h.json", chat := true }
        { baseEnv with stdinLines := ["hi", "again"],
                       api := fun _ => ApiResult.ok "yo" }).exitCode = 0 :=
  ⟨by decide, by decide, rfl, by decide⟩

/-- C4 counterexample: with a transport failure, the one-shot run reports on
stderr but exits with status zero (the claim demands a non-zero status), and
the chat loop terminates after the failed exchange instead of continuing to
the next input line (only one API call is made although a second line is
waiting). -/
theorem transport_error_counterexample :
    (main { baseArgs with expression := some "hi" }
        { baseEnv with api := fun _ => ApiResult.apiError "boom" }).exitCode = 0 ∧
    (main { baseArgs with expression := some "hi" }
        { baseEnv with api := fun _ => ApiResult.apiError "boom" }).stderr
      = ["A Gemini API error occurred: boom"] ∧
    (main { baseArgs with chat := true }
        { baseEnv with stdinLines := ["a", "b"],
                       api := fun _ => ApiResult.apiError "boom" }).apiCalls = ["a"] ∧
    (main { baseArgs with chat := true }
        { baseEnv with stdinLines := ["a", "b"],
                       api := fun _ => ApiResult.apiError "boom" }).stderr
      = ["You: ", "A Gemini API error occurred: boom"] :=
  ⟨by decide, by decide, by decide, by decide⟩

/-- C4 as amended: a transport (GoogleAPIError) failure is reported on
standard error in both modes; in one-shot mode the process then exits with
status zero (not non-zero), and in interactive mode the loop terminates —
the failing line is the only API call and the remaining input lines are
never processed. -/
theorem transport_error_reporting (p m u line : String) (vb : Bool)
    (sv : Option String) (api : Nat → ApiResult) (fs : FS)
    (seed hist : List Turn) (rest : List String) (idx : Nat)
    (hu : u ≠ "") (h0 : api 0 = ApiResult.apiError m)
    (hidx : api idx = ApiResult.apiError m)
    (h1 : ¬pyLower line = "exit") (h2 : ¬pyLower line = "quit") :
    (oneShotExchange p vb sv api fs seed u).exitCode = 0 ∧
    (oneShotExchange p vb sv api fs seed u).stderr = apiErrorLines vb m ∧
    (chatLoop p vb sv api (line :: rest) idx hist fs).exitCode = 0 ∧
    (chatLoop p vb sv api (line :: rest) idx hist fs).apiCalls = [applyPrefix p line] ∧
    (chatLoop p vb sv api (line :: rest) idx hist fs).stderr
      = "You: " :: apiErrorLines vb m := by
  refine ⟨?_, ?_, ?_, ?_, ?_⟩ <;>
    simp [oneShotExchange, chatLoop, hu, h0, hidx, h1, h2]

/-- Witness for C4 as amended, at a concrete failing API. -/
theorem transport_error_reporting_witness :
    ("hi" : String) ≠ "" ∧
    (fun _ => ApiResult.apiError "boom" : Nat → ApiResult) 0
      = ApiResult.apiError "boom" ∧
    ¬pyLower "a" = "exit" ∧
    (oneShotExchange "" false none (fun _ => ApiResult.apiError "boom")
        (fun _ => FileState.absent) [] "hi").exitCode = 0 ∧
    (chatLoop "" false none (fun _ => ApiResult.apiError "boom")
        ["a", "b"] 0 [] (fun _ => FileState.absent)).apiCalls = ["a"] := by
  have h := transport_error_reporting "" "boom" "hi" "a" false none
    (fun _ => ApiResult.apiError "boom") (fun _ => FileState.absent) [] []
    ["b"] 0 (by decide) rfl rfl (by decide) (by decide)
  exact ⟨by decide, rfl, by decide, h.1, by simpa [applyPrefix] using h.2.2.2.1⟩

/-- C5: in both modes the text sent to the API is exactly the configured
prefix, a newline and the user text when the prefix is non-empty, and
exactly the user text when the prefix is empty. -/
theorem prompt_prefix_application (p u line : String) (vb : Bool)
    (sv : Option String) (api : Nat → ApiResult) (fs : FS)
    (seed hist : List Turn) (rest : List String) (idx : Nat)
    (hu : u ≠ "") (h1 : ¬pyLower line = "exit") (h2 : ¬pyLower line = "quit") :
    (p ≠ "" → applyPrefix p u = p ++ "\n" ++ u) ∧
    (p = "" → applyPrefix p u = u) ∧
    (oneShotExchange p vb sv api fs seed u).apiCalls = [applyPrefix p u] ∧
    (chatLoop p vb sv api (line :: rest) idx hist fs).apiCalls.head?
      = some (applyPrefix p line) := by
  refine ⟨fun hp => by simp [applyPrefix, hp], fun hp => by simp [applyPrefix, hp],
    ?_, chatLoop_head_call p vb sv api line rest idx hist fs h1 h2⟩
  cases h : api 0 <;> by_cases hsv : pyTruthy sv <;>
    simp [oneShotExchange, hu, h, hsv]

/-- Witness for C5 with a non-empty and an empty prefix. -/
theorem prompt_prefix_application_witness :
    ("rules" : String) ≠ "" ∧ ("hi" : String) ≠ "" ∧ ¬pyLower "hi" = "exit" ∧
    applyPrefix "rules" "hi" = "rules" ++ "\n" ++ "hi" ∧
    applyPrefix "" "hi" = "hi" ∧
    (oneShotExchange "rules" false none (fun _ => ApiResult.ok "r")
        (fun _ => FileState.absent) [] "hi").apiCalls = ["rules\nhi"] ∧
    (chatLoop "rules" false none (fun _ => ApiResult.ok "r")
        ["hi"] 0 [] (fun _ => FileState.absent)).apiCalls.head?
      = some "rules\nhi" := by
  have ha := prompt_prefix_application "rules" "hi" "hi" false none
    (fun _ => ApiResult.ok "r") (fun _ => FileState.absent) [] [] [] 0
    (by decide) (by decide) (by decide)
  have hb := prompt_prefix_application "" "hi" "hi" false none
    (fun _ => ApiResult.ok "r") (fun _ => FileState.absent) [] [] [] 0
    (by decide) (by decide) (by decide)
  refine ⟨by decide, by decide, by decide, ha.1 (by decide), hb.2.1 rfl, ?_, ?_⟩
  · simpa [applyPrefix] using ha.2.2.1
  · simpa [applyPrefix] using ha.2.2.2

/-- C6 counterexample: the line `" exit"` equals `exit` case-insensitively
after trimming, yet the chat loop does issue an API call for it (the code
compares `user_input.lower()` against the keywords without stripping). -/
theorem exit_keyword_trim_counterexample :
    pyLower (pyStrip " exit") = "exit" ∧
    (main { baseArgs with chat := true }
        { baseEnv with stdinLines := [" exit"],
                       api := fun _ => ApiResult.ok "r" }).apiCalls = [" exit"] :=
  ⟨by decide, by decide⟩

/-- C6 as amended: a line whose `.lower()` — without trimming — is exactly
`exit` or `quit` ends the loop with no API call for it or any later line,
and end-of-stream ends the loop the same way. -/
theorem exit_keyword_untrimmed (p : String) (vb : Bool) (sv : Option String)
    (api : Nat → ApiResult) (line : String) (rest : List String) (idx : Nat)
    (hist : List Turn) (fs : FS)
    (h : pyLower line = "exit" ∨ pyLower line = "quit") :
    (chatLoop p vb sv api (line :: rest) idx hist fs).apiCalls = [] ∧
    (chatLoop p vb sv api [] idx hist fs).apiCalls = [] := by
  rcases h with h | h <;>
    by_cases hsv : pyTruthy sv <;>
      simp [chatLoop, h, hsv, argsStderrLookup_eq]

/-- Witness for C6 as amended: `EXIT` (case-insensitive match, no
whitespace) ends the loop without an API call; so does end-of-stream. -/
theorem exit_keyword_untrimmed_witness :
    (pyLower "EXIT" = "exit" ∨ pyLower "EXIT" = "quit") ∧
    (chatLoop "" false none (fun _ => ApiResult.ok "r")
        ["EXIT", "later"] 0 [] (fun _ => FileState.absent)).apiCalls = [] ∧
    (chatLoop "" false none (fun _ => ApiResult.ok "r")
        [] 0 [] (fun _ => FileState.absent)).apiCalls = [] := by
  have h := exit_keyword_untrimmed "" false none (fun _ => ApiResult.ok "r")
    "EXIT" ["later"] 0 [] (fun _ => FileState.absent) (Or.inl (by decide))
  exact ⟨Or.inl (by decide), h.1, h.2⟩

/-- C7 counterexample: with the credential absent from both the flag and the
environment, and verbose off, the process exits with status zero and prints
nothing to standard error (the claim demands a non-zero status and a
diagnostic); no API call is made. -/
theorem missing_credential_counterexample :
    (main { baseArgs with api_key := none } baseEnv).exitCode = 0 ∧
    (main { baseArgs with api_key := none } baseEnv).stderr = [] ∧
    (main { baseArgs with api_key := none } baseEnv).apiCalls = [] :=
  ⟨by decide, by decide, by decide⟩

/-- C7 as amended: when the credential is absent from both the flag and the
`GOOGLE_API_KEY` environment variable (and the save/load flags do not
conflict), the process returns before entering a session or calling the API,
with exit status zero; the two-line diagnostic is printed to standard error
only in verbose mode. -/
theorem missing_credential_behavior (args : Args) (env : Env)
    (h1 : pyTruthy args.api_key = false)
    (h2 : pyTruthy env.googleApiKey = false)
    (h3 : (pyTruthy args.save_history && pyTruthy args.load_history) = false) :
    main args env =
      { exitCode := 0, stdout := [],
        stderr :=
          if args.verbose then
            ["Error: The Gemini API key was not provided.",
             "Please set it via the --api-key flag or the GOOGLE_API_KEY environment variable."]
          else [],
        apiCalls := [], fs := env.fs } := by
  simp [main, h1, h2, h3]

/-- Witness for C7 as amended. -/
theorem missing_credential_behavior_witness :
    pyTruthy ({ baseArgs with api_key := none } : Args).api_key = false ∧
    pyTruthy baseEnv.googleApiKey = false ∧
    main { baseArgs with api_key := none } baseEnv =
      { exitCode := 0, stdout := [], stderr := [], apiCalls := [],
        fs := baseEnv.fs } := by
  refine ⟨rfl, rfl, ?_⟩
  simpa using missing_credential_behavior { baseArgs with api_key := none }
    baseEnv rfl rfl rfl

/-- C8 counterexample: an inline system instruction is used verbatim, not
trimmed of surrounding whitespace — `" x "` resolves to `" x "`, although
its trimmed form differs. -/
theorem inline_instruction_untrimmed_counterexample :
    resolveSystemInstruction { baseArgs with system_instruction := some " x " }
      baseEnv.fs = Except.ok (" x ", []) ∧
    pyStrip " x " ≠ " x " :=
  ⟨rfl, by decide⟩

/-- C8 as amended: the system instruction and the prompt prefix each follow
the three-tier precedence inline flag > explicit file > default file, where
the file tiers are stripped of surrounding whitespace but inline flag text
is used verbatim; absence of all three tiers yields the empty string, a
named-but-missing explicit file is fatal (`sys.exit(1)` after a stderr
diagnostic, exit status 1 at process level), and a missing default file is
silently non-fatal. -/
theorem instruction_three_tier_resolution (args : Args) (fs : FS) :
    (pyTruthy args.system_instruction = true →
      resolveSystemInstruction args fs
        = Except.ok (args.system_instruction.getD "", [])) ∧
    (pyTruthy args.system_instruction = false →
      pyTruthy args.system_instruction_file = true →
      (∀ s, fs (args.system_instruction_file.getD "") = FileState.textFile s →
        resolveSystemInstruction args fs
          = Except.ok (pyStrip s,
              if args.verbose then
                ["Loaded system instruction from "
                  ++ args.system_instruction_file.getD ""]
              else [])) ∧
      (fs (args.system_instruction_file.getD "") = FileState.absent →
        resolveSystemInstruction args fs
          = Except.error (.fatalExit ("Error: System instruction file "
              ++ args.system_instruction_file.getD "" ++ " not found.")))) ∧
    (pyTruthy args.system_instruction = false →
      pyTruthy args.system_instruction_file = false →
      (∀ s, fs "system_instructions.txt" = FileState.textFile s →
        resolveSystemInstruction args fs
          = Except.ok (pyStrip s,
              if args.verbose then
                ["Loaded system instruction from default file system_instructions.txt"]
              else [])) ∧
      (fs "system_instructions.txt" = FileState.absent →
        resolveSystemInstruction args fs
          = Except.ok ("",
              if args.verbose then ["No system instruction file found."] else []))) ∧
    (pyTruthy args.promptPrefix = true →
      resolvePromptPrefix args fs = Except.ok (args.promptPrefix.getD "", [])) ∧
    (pyTruthy args.promptPrefix = false →
      pyTruthy args.promptPrefixFile = true →
      (∀ s, fs (args.promptPrefixFile.getD "") = FileState.textFile s →
        resolvePromptPrefix args fs
          = Except.ok (pyStrip s,
              if args.verbose then
                ["Loaded prompt prefix from " ++ args.promptPrefixFile.getD ""]
              else [])) ∧
      (fs (args.promptPrefixFile.getD "") = FileState.absent →
        resolvePromptPrefix args fs
          = Except.error (.fatalExit ("Error: Prompt prefix file "
              ++ args.promptPrefixFile.getD "" ++ " not found.")))) ∧
    (pyTruthy args.promptPrefix = false →
      pyTruthy args.promptPrefixFile = false →
      (∀ s, fs "prompt_prefix.txt" = FileState.textFile s →
        resolvePromptPrefix args fs
          = Except.ok (pyStrip s,
              if args.verbose then
                ["Loaded prompt prefix from default file prompt_prefix.txt"]
              else [])) ∧
      (fs "prompt_prefix.txt" = FileState.absent →
        resolvePromptPrefix args fs
          = Except.ok ("",
              if args.verbose then ["No prompt prefix file found."] else []))) := by
  refine ⟨fun h => ?_, fun h h2 => ⟨fun s hs => ?_, fun hs => ?_⟩,
    fun h h2 => ⟨fun s hs => ?_, fun hs => ?_⟩,
    fun h => ?_, fun h h2 => ⟨fun s hs => ?_, fun hs => ?_⟩,
    fun h h2 => ⟨fun s hs => ?_, fun hs => ?_⟩⟩ <;>
    simp [resolveSystemInstruction, resolvePromptPrefix, readTextFile,
      h, *]

/-- Witness for C8 as amended: inline tier verbatim, explicit file trimmed,
missing explicit file fatal, all tiers absent gives the empty string. -/
theorem instruction_three_tier_resolution_witness :
    pyTruthy (some "be brief") = true ∧
    resolveSystemInstruction { baseArgs with system_instruction := some "be brief" }
      baseEnv.fs = Except.ok ("be brief", []) ∧
    resolvePromptPrefix { baseArgs with promptPrefixFile := some "p.txt" }
      (fun p => if p = "p.txt" then FileState.textFile " rules \n" else FileState.absent)
      = Except.ok ("rules", []) ∧
    resolvePromptPrefix { baseArgs with promptPrefixFile := some "gone.txt" }
      baseEnv.fs
      = Except.error (.fatalExit "Error: Prompt prefix file gone.txt not found.") ∧
    resolveSystemInstruction baseArgs baseEnv.fs = Except.ok ("", []) := by
  refine ⟨rfl, ?_, ?_, ?_, ?_⟩
  · exact (instruction_three_tier_resolution
      { baseArgs with system_instruction := some "be brief" } baseEnv.fs).1 rfl
  · have h := ((instruction_three_tier_resolution
      { baseArgs with promptPrefixFile := some "p.txt" }
      (fun p => if p = "p.txt" then FileState.textFile " rules \n"
        else FileState.absent)).2.2.2.2.1 rfl rfl).1 " rules \n" rfl
    simpa using h
  · have h := ((instruction_three_tier_resolution
      { baseArgs with promptPrefixFile := some "gone.txt" }
      baseEnv.fs).2.2.2.2.1 rfl rfl).2 rfl
    simpa using h
  · have h := ((instruction_three_tier_resolution baseArgs baseEnv.fs).2.2.1
      rfl rfl).2 rfl
    simpa using h

/-- C9 counterexample: in one-shot quiet mode an input that is empty after
stripping exits with no diagnostic at all (the claim says one is emitted),
and in interactive mode an empty line is not ignored — it is sent to the
API as an exchange of its own. -/
theorem empty_input_counterexample :
    pyStrip "  " = "" ∧
    (main baseArgs { baseEnv with stdinAll := "  " }).stderr = [] ∧
    (main baseArgs { baseEnv with stdinAll := "  " }).apiCalls = [] ∧
    (main { baseArgs with chat := true }
        { baseEnv with stdinLines := [""],
                       api := fun _ => ApiResult.ok "r" }).apiCalls = [""] :=
  ⟨by decide, by decide, by decide, by decide⟩

/-- C9 as amended: in one-shot mode an input empty after stripping exits
(status zero) without calling the API, with the no-prompt diagnostic only in
verbose mode; in interactive mode an empty line is not treated specially —
it is sent to the API (prefixed when a prefix is configured) like any other
non-exit line. -/
theorem empty_input_behavior (p : String) (vb : Bool) (sv : Option String)
    (api : Nat → ApiResult) (fs : FS) (seed hist : List Turn)
    (rest : List String) (idx : Nat) :
    oneShotExchange p vb sv api fs seed "" =
      { exitCode := 0, stdout := [],
        stderr := if vb then ["No prompt provided. Exiting."] else [],
        apiCalls := [], fs := fs } ∧
    (chatLoop p vb sv api ("" :: rest) idx hist fs).apiCalls.head?
      = some (applyPrefix p "") := by
  exact ⟨by simp [oneShotExchange],
    chatLoop_head_call p vb sv api "" rest idx hist fs (by decide) (by decide)⟩

/-- C10: with neither mode flag given, the run is identical to the run with
the one-shot flag set — `main` branches only on `args.chat`, and `args.once`
is written (line 193) but never read. -/
theorem default_mode_is_once (args : Args) (env : Env)
    (h1 : args.once = false) (h2 : args.chat = false) :
    main { args with once := true } env = main args env := by
  cases args
  rfl

/-- Witness for C10 at the baseline arguments. -/
theorem default_mode_is_once_witness :
    baseArgs.once = false ∧ baseArgs.chat = false ∧
    main { baseArgs with once := true } baseEnv = main baseArgs baseEnv :=
  ⟨rfl, rfl, default_mode_is_once baseArgs baseEnv rfl rfl⟩

end AiSpec

